import Mathlib

/-!
# Verification of the heating-analysis engine (`src/main.py`)

Shallow embedding of the two public operations of the service, faithful to
the first (syntactically reachable) definitions in `src/main.py`:

* `analyze_day`       — lines 49–89 (`POST /analyze-day`)
* `calculate_coeff`   — lines 91–104 (`POST /calc-coeff`)

Modelling conventions:

* Python floats are embedded as exact rationals (`ℚ`); `round(x, k)` is
  embedded as `roundTo k` (round half to even on the scaled value, which is
  Python's rounding mode).
* Timestamp strings handed to `pd.to_datetime` are modelled as integer
  seconds since the epoch written in decimal; a string that does not parse
  as an integer models a timestamp `pd.to_datetime` rejects, which makes the
  surrounded `try` block raise and is the one internal error source of
  `analyze_day`.  Date strings handed to `SolarPhysics` are modelled as the
  day-of-year numeral, with the code's fallback `1` on parse failure.
* `math.cos (2π(day_of_year+10)/365)` is transcendental; the embedding is
  parametric in a function `cosr : ℕ → ℚ` standing for that value at a given
  day of year.  No claim constrains the cosine numerically, so every theorem
  below holds for all `cosr`.
* `df.sort_values('time')` is embedded as a stable insertion sort on the
  timestamp key.  (pandas' default quicksort is unstable; on duplicate
  timestamps the tie order is unspecified there, and the embedding fixes the
  stable order.)
* JSON response dictionaries are embedded as records of `Option` fields: a
  key absent from the returned dictionary is `none`.
-/

/-- One raw sensor log entry, as received by the endpoint
(`LogItem`, `src/main.py` lines 10–13). -/
structure LogItem where
  time : String
  sup : ℚ
  ret : ℚ
deriving DecidableEq

/-- The `/analyze-day` request body with its pydantic defaults
(`DayAnalyzeRequest`, `src/main.py` lines 15–22). -/
structure DayAnalyzeRequest where
  logs : List LogItem
  flow : ℚ
  indoor_temp : ℚ := 22
  solar_avg : ℚ := 0
  prev_meter_val : ℚ := 0
  date_str : String := ""
  current_coeff : ℚ := 1.05
deriving DecidableEq

/-- One historical day record (`HistoryItem`, `src/main.py` lines 24–27). -/
structure HistoryItem where
  date : String
  water : ℚ
  ele : ℚ
deriving DecidableEq

/-- The `/calc-coeff` request body (`CoeffRequest`, `src/main.py` lines 29–30). -/
structure CoeffRequest where
  history : List HistoryItem
deriving DecidableEq

/-- The JSON dictionary returned by `/analyze-day`; each field `none` when the
corresponding key is absent.  The success dictionary (lines 81–87) carries
`kwh`, `run_mins`, `new_meter_val`, `solar_gain`, `used_coeff`; the error
dictionary (line 89) carries only `error`.  No path of this endpoint emits an
`off_mins` key; the field exists here so that statements about its absence can
be made. -/
structure AnalyzeResponse where
  kwh : Option ℚ
  run_mins : Option ℕ
  off_mins : Option ℕ
  new_meter_val : Option ℚ
  solar_gain : Option ℚ
  used_coeff : Option ℚ
  error : Option String
deriving DecidableEq

/-- The JSON dictionary returned by `/calc-coeff` (lines 94–104): fallback
paths return `{"coeff": 1.157}`, the success path `{"coeff": …, "status": "ok"}`;
no path of this version emits an `error` key (the `except` arm at line 104
would, were it reachable, also return only `{"coeff": 1.157}`). -/
structure CoeffResponse where
  coeff : Option ℚ
  status : Option String
  error : Option String
deriving DecidableEq

/-- Round half to even: the integer nearest to `q`, ties to the even integer
(Python's rounding mode for `round`). -/
def rhalfEven (q : ℚ) : ℤ :=
  if q - ⌊q⌋ < 1/2 then ⌊q⌋
  else if 1/2 < q - ⌊q⌋ then ⌊q⌋ + 1
  else if ⌊q⌋ % 2 = 0 then ⌊q⌋ else ⌊q⌋ + 1

/-- Embedding of Python's `round(q, k)`. -/
def roundTo (k : ℕ) (q : ℚ) : ℚ := (rhalfEven (q * 10 ^ k) : ℚ) / 10 ^ k

/-- A history day passing the activity filter of line 96:
`(df['ele'] > 0.1) & (df['water'] > 0.1)`. -/
def isValidDay (h : HistoryItem) : Bool :=
  decide ((0.1 : ℚ) < h.ele) && decide ((0.1 : ℚ) < h.water)

/-- A history day's `daily_coeff` column (line 98): electricity over water. -/
def dailyCoeff (h : HistoryItem) : ℚ := h.ele / h.water

/-- The outlier filter of line 99: `0.8 < daily_coeff < 2.5`, both strict. -/
def isClean (c : ℚ) : Bool := decide ((0.8 : ℚ) < c) && decide (c < (2.5 : ℚ))

/-- `np.average(vals, weights)`: the weights-weighted mean `Σ vᵢwᵢ / Σ wᵢ`. -/
def wAverage (vals weights : List ℚ) : ℚ :=
  ((vals.zip weights).map (fun p => p.1 * p.2)).sum / weights.sum

/-- The fallback dictionary `{"coeff": 1.157}` returned at lines 94, 97, 100
(and by the unreachable `except` arm at line 104). -/
def coeffDefaultResponse : CoeffResponse :=
  { coeff := some 1.157, status := none, error := none }

/-- Embedding of `calculate_coeff` (`POST /calc-coeff`, `src/main.py`
lines 91–104).  The `try` body performs no fallible operation on the
pydantic-validated numeric inputs (the only division, line 98, has divisor
`> 0.1` by the filter of line 96, and the `np.average` weight sum is likewise
positive), so the `except` arm is unreachable and the embedding is the `try`
body itself. -/
def calculate_coeff (data : CoeffRequest) : CoeffResponse :=
  if data.history.isEmpty then coeffDefaultResponse
  else
    let valid := data.history.filter isValidDay
    if valid.length < 3 then coeffDefaultResponse
    else
      let clean := valid.filter (fun h => isClean (dailyCoeff h))
      if clean.isEmpty then coeffDefaultResponse
      else
        { coeff := some (roundTo 4 (wAverage (clean.map dailyCoeff) (clean.map (·.water)))),
          status := some "ok",
          error := none }

/-- The numeric value of a decimal digit character, `none` otherwise. -/
def digitVal (c : Char) : Option Nat :=
  if c.toNat < 48 ∨ 57 < c.toNat then none else some (c.toNat - 48)

/-- Parse a nonempty list of decimal digits. -/
def parseDigitList : List Char → Option Nat
  | [] => none
  | [c] => digitVal c
  | c :: rest =>
    match digitVal c, parseDigitList rest with
    | some d, some n => some (d * 10 ^ rest.length + n)
    | _, _ => none

/-- Model of `pd.to_datetime` on one timestamp string: timestamps are
modelled as integer seconds since the epoch written in decimal, with an
optional leading minus sign; any other string models a timestamp
`pd.to_datetime` rejects (which raises inside the `try` block of
`analyze_day`). -/
def parseTime (s : String) : Option Int :=
  match s.data with
  | '-' :: rest => (parseDigitList rest).map (fun n => -(n : Int))
  | l => (parseDigitList l).map (fun n => (n : Int))

/-- One sensor sample after timestamp parsing. -/
structure SampleP where
  t : Int
  sup : ℚ
  ret : ℚ
deriving DecidableEq

/-- `pd.to_datetime(df['time'])` over the whole column (line 56): succeeds
with the parsed samples iff every timestamp parses, otherwise the raised
parse error propagates to the `except` arm. -/
def parseLogs : List LogItem → Option (List SampleP)
  | [] => some []
  | l :: ls =>
    match parseTime l.time, parseLogs ls with
    | some t, some rest => some (⟨t, l.sup, l.ret⟩ :: rest)
    | _, _ => none

/-- Timestamp order on parsed samples. -/
def timeLE (a b : SampleP) : Prop := a.t ≤ b.t

instance : DecidableRel timeLE := fun a b => inferInstanceAs (Decidable (a.t ≤ b.t))

instance : IsTotal SampleP timeLE := ⟨fun a b => Int.le_total a.t b.t⟩

instance : IsTrans SampleP timeLE := ⟨fun _ _ _ h1 h2 => le_trans h1 h2⟩

/-- `df.sort_values('time')` (line 57), embedded as a stable sort on the
timestamp key. -/
def sortSamples (l : List SampleP) : List SampleP := l.insertionSort timeLE

/-- `delta_t` column (line 58): `(sup - ret).clip(lower=0)`. -/
def deltaT (s : SampleP) : ℚ := max 0 (s.sup - s.ret)

/-- `is_running` column (line 59): `(delta_t > 0.4) & (sup > 25.0)`. -/
def isRunning (s : SampleP) : Bool :=
  decide ((0.4 : ℚ) < deltaT s) && decide ((25 : ℚ) < s.sup)

/-- `power_kw` column (line 60): `flow * delta_t * 0.0697`.  Note the source
computes this at every sample, with no gating by `is_running`. -/
def powerKw (flow : ℚ) (s : SampleP) : ℚ := flow * deltaT s * 0.0697

/-- Elapsed hours since the instant `t0` (line 63):
`(index - index[0]).total_seconds() / 3600`. -/
def hoursFrom (t0 : Int) (s : SampleP) : ℚ := ((s.t - t0 : Int) : ℚ) / 3600

/-- `np.trapezoid`/`np.trapz` (lines 64–67) on a list of `(x, y)` points:
the sum of the trapezoid areas between consecutive points. -/
def trapz : List (ℚ × ℚ) → ℚ
  | a :: b :: rest => (b.1 - a.1) * (a.2 + b.2) / 2 + trapz (b :: rest)
  | _ => 0

/-- The `water_kwh` value of lines 62–67: the trapezoidal integral of
`power_kw` against elapsed hours, `0` when fewer than two samples exist. -/
def waterKwh (flow : ℚ) : List SampleP → ℚ
  | s0 :: s1 :: rest =>
    trapz ((s0 :: s1 :: rest).map (fun s => (hoursFrom s0.t s, powerKw flow s)))
  | _ => 0

/-- The wall-clock minute bucket an instant falls in (floor division, as
pandas' `resample('1min')` bins epoch instants). -/
def minuteOf (t : Int) : Int := t.fdiv 60

/-- `run_mins` (lines 69–70): `is_running` is resampled onto the 1-minute
buckets spanning the first to the last timestamp, each bucket taking the max
over its samples (`fillna(0)` makes empty buckets not-running), and the
resulting booleans are summed.  Expects the sorted sample list. -/
def runMinutes : List SampleP → ℕ
  | [] => 0
  | s0 :: rest =>
    (List.range ((minuteOf (rest.getLastD s0).t - minuteOf s0.t).toNat + 1)).countP
      (fun (j : ℕ) => (s0 :: rest).any
        (fun s => decide (minuteOf s.t = minuteOf s0.t + (j : Int)) && isRunning s))

/-- Model of `pd.to_datetime(date_str).dayofyear` with the fallback of
`SolarPhysics.__init__` (lines 33–38): date strings are modelled as the
day-of-year numeral; an unparseable one models the `except` fallback `1`. -/
def dayOfYearOf (s : String) : ℕ := (parseDigitList s.data).getD 1

/-- `SolarPhysics.get_solar_factor` (lines 40–43), parametric in
`cosr doy`, which stands for `math.cos(2 * math.pi * (doy + 10) / 365)`. -/
def solarFactor (cosr : ℕ → ℚ) (doy : ℕ) : ℚ :=
  0.15 + 0.85 * ((cosr doy + 1) / 2)

/-- The error dictionary of line 89: `{"error": str(e)}` and nothing else. -/
def errorResponse (msg : String) : AnalyzeResponse :=
  { kwh := none, run_mins := none, off_mins := none, new_meter_val := none,
    solar_gain := none, used_coeff := none, error := some msg }

/-- Embedding of `analyze_day` (`POST /analyze-day`, `src/main.py`
lines 49–89).  The one fallible operation inside the `try` block is the
timestamp parse of line 56 (all other inputs are pydantic-validated numbers),
so the `except` arm of lines 88–89 fires exactly when some log timestamp
fails to parse.  `parseLogs [] = some []` mirrors the `if data.logs:` guard
of line 54: an empty batch parses nothing and keeps `water_kwh = 0`,
`run_mins = 0`. -/
def analyze_day (cosr : ℕ → ℚ) (data : DayAnalyzeRequest) : AnalyzeResponse :=
  match parseLogs data.logs with
  | none => errorResponse "time data parse failure"
  | some pts =>
    let sorted := sortSamples pts
    let water_kwh := waterKwh data.flow sorted
    let run_mins := runMinutes sorted
    let solar_gain_kwh : ℚ :=
      if data.date_str ≠ "" ∧ 0 < data.indoor_temp then
        data.solar_avg * 24 * 12 * 0.6 * solarFactor cosr (dayOfYearOf data.date_str) / 1000
      else 0
    let heating_consumption := water_kwh * data.current_coeff
    let new_meter_val := data.prev_meter_val + heating_consumption
    { kwh := some (roundTo 3 water_kwh),
      run_mins := some run_mins,
      off_mins := none,
      new_meter_val := some (roundTo 2 new_meter_val),
      solar_gain := some (roundTo 2 solar_gain_kwh),
      used_coeff := some data.current_coeff,
      error := none }

/-- The all-zero sample, used as the out-of-range default for list indexing in
theorem statements (the indices used are always in range). -/
def sample0 : SampleP := ⟨0, 0, 0⟩

/-- The success-dictionary shape of `analyze_day` (lines 81–87): value keys
present, no `error` key, no `off_mins` key. -/
def okShape (r : AnalyzeResponse) : Prop :=
  r.error = none ∧ r.kwh.isSome ∧ r.run_mins.isSome ∧ r.new_meter_val.isSome ∧
    r.solar_gain.isSome ∧ r.used_coeff.isSome ∧ r.off_mins = none

/-- The error-dictionary shape of `analyze_day` (line 89): only the `error`
key is present; in particular no default values accompany it. -/
def errShape (r : AnalyzeResponse) : Prop :=
  r.error.isSome ∧ r.kwh = none ∧ r.run_mins = none ∧ r.new_meter_val = none ∧
    r.solar_gain = none ∧ r.used_coeff = none ∧ r.off_mins = none

/-- The energy computation claim C2 describes — the power series gated by the
running classification (`0` when not running) — following the spec's words,
for comparison with the ungated `waterKwh` the source computes. -/
def claimGatedKwh (flow : ℚ) : List SampleP → ℚ
  | s0 :: s1 :: rest =>
    trapz ((s0 :: s1 :: rest).map
      (fun s => (hoursFrom s0.t s, if isRunning s then powerKw flow s else 0)))
  | _ => 0

/-- Linear interpolation of `(sup, ret)` at the instant `g` between the
bracketing samples of a time-sorted list (the nearest sample's values at or
beyond the ends).  Claim-side helper for C3's comparison definition. -/
def interpPair : List SampleP → Int → ℚ × ℚ
  | [], _ => (0, 0)
  | [s], _ => (s.sup, s.ret)
  | a :: b :: rest, g =>
    if g ≤ a.t then (a.sup, a.ret)
    else if g ≤ b.t then
      (a.sup + (b.sup - a.sup) * (((g - a.t : Int) : ℚ) / ((b.t - a.t : Int) : ℚ)),
       a.ret + (b.ret - a.ret) * (((g - a.t : Int) : ℚ) / ((b.t - a.t : Int) : ℚ)))
    else interpPair (b :: rest) g

/-- The day-energy computation claim C3 describes, following the spec's words
(§4.1–4.2), for comparison with `analyze_day`: resample temperatures onto the
1-minute grid spanning the observed timestamps by linear interpolation, gate
the power by the running classification, and integrate trapezoidally. -/
def claimResampledKwh (flow : ℚ) (samples : List SampleP) : ℚ :=
  match sortSamples samples with
  | [] => 0
  | s0 :: rest =>
    let tLast := (rest.getLastD s0).t
    let gridPts := (List.range ((tLast - s0.t).toNat / 60 + 1)).map
      (fun j => s0.t + 60 * (j : Int))
    trapz (gridPts.map (fun g =>
      let sr := interpPair (s0 :: rest) g
      let d : ℚ := max 0 (sr.1 - sr.2)
      (((g - s0.t : Int) : ℚ) / 3600,
       if 0.4 < d ∧ 25 < sr.1 then flow * d * 0.0697 else 0)))

/-- The coefficient claim C5 describes — the water-weighted average over the
valid days whose per-day ratio lies in the CLOSED interval `[0.8, 2.5]` —
following the spec sentence, for comparison with `calculate_coeff`'s strict
bounds; `none` when no day qualifies. -/
def claimCoeffClosed (data : CoeffRequest) : Option ℚ :=
  let clean := (data.history.filter isValidDay).filter
    (fun h => decide ((0.8 : ℚ) ≤ dailyCoeff h) && decide (dailyCoeff h ≤ (2.5 : ℚ)))
  if clean.isEmpty then none
  else some ((clean.map (fun h => dailyCoeff h * h.water)).sum / (clean.map (·.water)).sum)

/-- Modelled from the spec: Estimation A of §4.5, the recency-weighted
coefficient estimator, which is absent from `src/main.py` (only the weighted-
average Estimation B appears there).  Per the spec's words: filter valid days
(both figures above the activity threshold), require at least 3, take the most
recent 7 valid days (or all if fewer; history is chronological, so the last
entries), form `sum(electricity) / sum(water)`, return the default `1.157` on
a zero water sum, and clamp the result to `[0.7, 1.5]`. -/
def calc_coeff_recency (data : CoeffRequest) : CoeffResponse :=
  let valid := data.history.filter isValidDay
  if valid.length < 3 then coeffDefaultResponse
  else
    let recent := valid.drop (valid.length - 7)
    let eleSum := (recent.map (·.ele)).sum
    let waterSum := (recent.map (·.water)).sum
    if waterSum = 0 then coeffDefaultResponse
    else
      { coeff := some (max 0.7 (min 1.5 (eleSum / waterSum))),
        status := some "ok", error := none }

/-- One per-day water log of a distribution request (spec §4.6). -/
structure WaterLogItem where
  date : String
  water : ℚ
deriving DecidableEq

/-- Modelled from the spec: the Energy Distributor of §4.6, which is absent
from `src/main.py`.  Per the spec's words: when the water-energy sum is zero,
split `total` evenly across all days; otherwise each day's share is
`total * (water / water_sum)`, preserving day order and date labels. -/
def distribute_energy (total : ℚ) (logs : List WaterLogItem) : List (String × ℚ) :=
  let waterSum := (logs.map (·.water)).sum
  if waterSum = 0 then logs.map (fun l => (l.date, total / (logs.length : ℚ)))
  else logs.map (fun l => (l.date, total * (l.water / waterSum)))

theorem trapz_map_eq_sum (f : SampleP → ℚ × ℚ) :
    ∀ l : List SampleP,
      trapz (l.map f) = ∑ i in Finset.range (l.length - 1),
        ((f (l.getD (i + 1) sample0)).1 - (f (l.getD i sample0)).1) *
          ((f (l.getD i sample0)).2 + (f (l.getD (i + 1) sample0)).2) / 2
  | [] => by simp [trapz]
  | [a] => by simp [trapz]
  | a :: b :: t => by
    have ih := trapz_map_eq_sum f (b :: t)
    have hstep : trapz ((a :: b :: t).map f) =
        ((f b).1 - (f a).1) * ((f a).2 + (f b).2) / 2 + trapz ((b :: t).map f) := by
      simp [trapz]
    have hlen : (a :: b :: t).length - 1 = t.length + 1 := by simp
    rw [hstep, ih, hlen, Finset.sum_range_succ']
    have hshift : ∀ i ∈ Finset.range ((b :: t).length - 1),
        ((f ((b :: t).getD (i + 1) sample0)).1 - (f ((b :: t).getD i sample0)).1) *
          ((f ((b :: t).getD i sample0)).2 + (f ((b :: t).getD (i + 1) sample0)).2) / 2 =
        ((f ((a :: b :: t).getD (i + 1 + 1) sample0)).1 -
            (f ((a :: b :: t).getD (i + 1) sample0)).1) *
          ((f ((a :: b :: t).getD (i + 1) sample0)).2 +
            (f ((a :: b :: t).getD (i + 1 + 1) sample0)).2) / 2 := by
      intro i _
      rfl
    rw [Finset.sum_congr rfl hshift]
    have hlen2 : (b :: t).length - 1 = t.length := by simp
    rw [hlen2]
    have hg0 : ((f ((a :: b :: t).getD 1 sample0)).1 - (f ((a :: b :: t).getD 0 sample0)).1) *
        ((f ((a :: b :: t).getD 0 sample0)).2 + (f ((a :: b :: t).getD 1 sample0)).2) / 2 =
        ((f b).1 - (f a).1) * ((f a).2 + (f b).2) / 2 := rfl
    rw [hg0]
    ring

theorem trapz_nonneg :
    ∀ xp : List (ℚ × ℚ),
      List.Chain' (fun p q => p.1 ≤ q.1) xp → (∀ p ∈ xp, 0 ≤ p.2) → 0 ≤ trapz xp
  | [], _, _ => by simp [trapz]
  | [a], _, _ => by simp [trapz]
  | a :: b :: t, hc, hp => by
    have hab : a.1 ≤ b.1 := (List.chain'_cons.mp hc).1
    have ih := trapz_nonneg (b :: t) (List.chain'_cons.mp hc).2
      (fun p h => hp p (List.mem_cons_of_mem _ h))
    have h1 : 0 ≤ a.2 := hp a (List.mem_cons_self _ _)
    have h2 : 0 ≤ b.2 := hp b (List.mem_cons_of_mem _ (List.mem_cons_self _ _))
    have hterm : 0 ≤ (b.1 - a.1) * (a.2 + b.2) / 2 :=
      div_nonneg (mul_nonneg (sub_nonneg.mpr hab) (add_nonneg h1 h2)) (by norm_num)
    have hstep : trapz (a :: b :: t) = (b.1 - a.1) * (a.2 + b.2) / 2 + trapz (b :: t) := by
      simp [trapz]
    rw [hstep]
    linarith

theorem sortSamples_sorted (l : List SampleP) : List.Sorted timeLE (sortSamples l) :=
  List.sorted_insertionSort timeLE l

theorem mem_sortSamples {a : SampleP} {l : List SampleP} : a ∈ sortSamples l ↔ a ∈ l :=
  (List.perm_insertionSort timeLE l).mem_iff

theorem rhalfEven_nonneg {q : ℚ} (h : 0 ≤ q) : 0 ≤ rhalfEven q := by
  have hf : (0 : ℤ) ≤ ⌊q⌋ := Int.floor_nonneg.mpr h
  unfold rhalfEven
  split
  · exact hf
  · split
    · omega
    · split <;> omega

theorem roundTo_nonneg (k : ℕ) {q : ℚ} (h : 0 ≤ q) : 0 ≤ roundTo k q := by
  unfold roundTo
  apply div_nonneg _ (by positivity)
  exact_mod_cast rhalfEven_nonneg (by positivity)

theorem waterKwh_eq_sum (flow : ℚ) (l : List SampleP) :
    waterKwh flow l = ∑ i in Finset.range (l.length - 1),
      (hoursFrom (l.getD 0 sample0).t (l.getD (i + 1) sample0) -
        hoursFrom (l.getD 0 sample0).t (l.getD i sample0)) *
        (powerKw flow (l.getD i sample0) + powerKw flow (l.getD (i + 1) sample0)) / 2 := by
  match l with
  | [] => simp [waterKwh]
  | [a] => simp [waterKwh]
  | s0 :: s1 :: rest =>
    have h0 : waterKwh flow (s0 :: s1 :: rest) =
        trapz ((s0 :: s1 :: rest).map (fun s => (hoursFrom s0.t s, powerKw flow s))) := rfl
    rw [h0, trapz_map_eq_sum]
    exact Finset.sum_congr rfl fun i _ => rfl

theorem waterKwh_nonneg {flow : ℚ} (hf : 0 ≤ flow) :
    ∀ l : List SampleP, List.Sorted timeLE l → 0 ≤ waterKwh flow l
  | [], _ => by simp [waterKwh]
  | [a], _ => by simp [waterKwh]
  | s0 :: s1 :: rest, hs => by
    have h0 : waterKwh flow (s0 :: s1 :: rest) =
        trapz ((s0 :: s1 :: rest).map (fun s => (hoursFrom s0.t s, powerKw flow s))) := rfl
    rw [h0]
    apply trapz_nonneg
    · rw [List.chain'_map]
      refine (List.Pairwise.chain' hs).imp ?_
      intro a b hab
      show hoursFrom s0.t a ≤ hoursFrom s0.t b
      unfold hoursFrom
      apply (div_le_div_iff_of_pos_right (by norm_num : (0:ℚ) < 3600)).mpr
      exact_mod_cast sub_le_sub_right hab s0.t
    · intro p hp
      rw [List.mem_map] at hp
      obtain ⟨s, _, rfl⟩ := hp
      exact mul_nonneg (mul_nonneg hf (le_max_left _ _)) (by norm_num)

theorem countP_range_eq_card_filter (q : ℕ → Prop) [DecidablePred q] (k : ℕ) :
    (List.range k).countP (fun j => decide (q j)) = ((Finset.range k).filter q).card := by
  induction k with
  | zero => simp
  | succ n ih =>
    rw [List.range_succ, List.countP_append, Finset.range_succ, Finset.filter_insert]
    by_cases hq : q n
    · rw [if_pos hq, Finset.card_insert_of_not_mem (by simp)]
      simp [hq, ih]
    · rw [if_neg hq]
      simp [hq, ih]

theorem card_filter_range_eq_card_filter_Icc (m0 m1 : ℤ) (hle : m0 ≤ m1)
    (Q : ℤ → Prop) [DecidablePred Q] :
    ((Finset.range ((m1 - m0).toNat + 1)).filter (fun (j : ℕ) => Q (m0 + (j : ℤ)))).card =
      ((Finset.Icc m0 m1).filter Q).card := by
  apply Finset.card_bij' (fun (j : ℕ) _ => m0 + ((j : ℕ) : ℤ)) (fun (m : ℤ) _ => (m - m0).toNat)
  · intro a ha
    simp only [Finset.mem_filter, Finset.mem_range] at ha
    simp only [Finset.mem_filter, Finset.mem_Icc]
    exact ⟨by omega, ha.2⟩
  · intro m hm
    simp only [Finset.mem_filter, Finset.mem_Icc] at hm
    simp only [Finset.mem_filter, Finset.mem_range]
    constructor
    · omega
    · have hmm : m0 + (((m - m0).toNat : ℕ) : ℤ) = m := by omega
      rw [hmm]
      exact hm.2
  · intro a ha
    simp only [Finset.mem_filter, Finset.mem_range] at ha
    omega
  · intro m hm
    simp only [Finset.mem_filter, Finset.mem_Icc] at hm
    omega

theorem minuteOf_mono {s t : ℤ} (h : s ≤ t) : minuteOf s ≤ minuteOf t := by
  unfold minuteOf
  rw [Int.fdiv_eq_ediv _ (by norm_num), Int.fdiv_eq_ediv _ (by norm_num)]
  exact Int.ediv_le_ediv (by norm_num) h

theorem runMinutes_eq_card_filter_Icc (s0 : SampleP) (rest : List SampleP)
    (hs : List.Sorted timeLE (s0 :: rest)) :
    runMinutes (s0 :: rest) =
      ((Finset.Icc (minuteOf s0.t) (minuteOf (rest.getLastD s0).t)).filter
        (fun m => ∃ s ∈ s0 :: rest, minuteOf s.t = m ∧ isRunning s = true)).card := by
  have hmem : rest.getLastD s0 ∈ s0 :: rest := List.getLastD_mem_cons rest s0
  have hts : s0.t ≤ (rest.getLastD s0).t := by
    rcases List.mem_cons.mp hmem with h | h
    · rw [h]
    · exact List.rel_of_sorted_cons hs _ h
  have hle : minuteOf s0.t ≤ minuteOf (rest.getLastD s0).t := minuteOf_mono hts
  have hpred : ∀ jj : ℕ,
      ((s0 :: rest).any fun s =>
          decide (minuteOf s.t = minuteOf s0.t + (jj : ℤ)) && isRunning s) =
        decide (∃ s ∈ s0 :: rest,
          minuteOf s.t = minuteOf s0.t + (jj : ℤ) ∧ isRunning s = true) := by
    intro jj
    rw [Bool.eq_iff_iff]
    simp [List.any_eq_true]
  unfold runMinutes
  simp only [hpred]
  exact (countP_range_eq_card_filter
    (fun (jj : ℕ) => ∃ s ∈ s0 :: rest,
      minuteOf s.t = minuteOf s0.t + (jj : ℤ) ∧ isRunning s = true)
    ((minuteOf (rest.getLastD s0).t - minuteOf s0.t).toNat + 1)).trans
    (card_filter_range_eq_card_filter_Icc (minuteOf s0.t) (minuteOf (rest.getLastD s0).t) hle
      (fun m => ∃ s ∈ s0 :: rest, minuteOf s.t = m ∧ isRunning s = true))

theorem wAverage_map {α : Type} (f g : α → ℚ) (l : List α) :
    wAverage (l.map f) (l.map g) = (l.map (fun a => f a * g a)).sum / (l.map g).sum := by
  unfold wAverage
  rw [List.zip_map', List.map_map]
  rfl

/-- C1: every input to either public operation produces a well-formed JSON
response and no exception escapes; however `analyze_day`'s error response
carries only the error string (no default values accompany it), and
`calculate_coeff`'s responses always carry a coefficient and never an error
string. -/
theorem c1_total_contract (cosr : ℕ → ℚ) (data : DayAnalyzeRequest)
    (cdata : CoeffRequest) :
    (okShape (analyze_day cosr data) ∨ errShape (analyze_day cosr data)) ∧
      (calculate_coeff cdata).coeff.isSome = true ∧
      (calculate_coeff cdata).error = none := by
  refine ⟨?_, ?_⟩
  · rcases h : parseLogs data.logs with _ | pts
    · exact Or.inr (by simp [analyze_day, h, errShape, errorResponse])
    · exact Or.inl (by simp [analyze_day, h, okShape])
  · simp only [calculate_coeff]
    split_ifs <;> simp [coeffDefaultResponse]

/-- C1 counterexample: on a request whose timestamp cannot be parsed, the
caught error yields a response that carries the error string but NO default
values — the `kwh` key is absent, contradicting the claim that the error
response is default-valued. -/
theorem c1_counterexample :
    (analyze_day (fun _ => 0)
        { logs := [⟨"bad-time", 30, 20⟩], flow := 1 }).error.isSome = true ∧
      (analyze_day (fun _ => 0) { logs := [⟨"bad-time", 30, 20⟩], flow := 1 }).kwh = none := by
  have h : parseLogs [⟨"bad-time", 30, 20⟩] = none := rfl
  constructor <;> simp [analyze_day, h, errorResponse]

/-- C4 (amended): with fewer than 3 valid history days (both figures above the
`0.1` activity threshold) the returned coefficient is the hardcoded default
`1.157` regardless of record content, but the response carries NO status
field (the version at lines 94–97 returns the bare `{"coeff": 1.157}`). -/
theorem c4_low_data_default (data : CoeffRequest)
    (h : (data.history.filter isValidDay).length < 3) :
    calculate_coeff data = coeffDefaultResponse := by
  by_cases he : data.history.isEmpty <;>
    simp [calculate_coeff, he, h]

theorem c4_witness :
    ((CoeffRequest.mk [⟨"d1", 5, 5⟩]).history.filter isValidDay).length < 3 ∧
      calculate_coeff ⟨[⟨"d1", 5, 5⟩]⟩ = coeffDefaultResponse :=
  ⟨by norm_num [isValidDay, List.filter],
    c4_low_data_default ⟨[⟨"d1", 5, 5⟩]⟩ (by norm_num [isValidDay, List.filter])⟩

/-- C4 counterexample: a single-day history is insufficient data, and the
response is the bare default — its `status` key is absent (`none`), whereas
the claim promises a status indicating insufficient data. -/
theorem c4_counterexample :
    (calculate_coeff ⟨[⟨"d1", 5, 5⟩]⟩).coeff = some (1157/1000) ∧
      (calculate_coeff ⟨[⟨"d1", 5, 5⟩]⟩).status = none := by
  constructor <;>
    norm_num [calculate_coeff, coeffDefaultResponse, isValidDay, List.filter]

/-- C5 (amended): with at least 3 valid days, the returned coefficient is the
water-weighted average of the per-day electricity/water ratios of the valid
days whose ratio lies STRICTLY inside `(0.8, 2.5)` (both bounds excluded,
line 99), rounded to 4 decimal places; if every valid day is discarded the
default `1.157` is returned. -/
theorem c5_weighted_average (data : CoeffRequest)
    (h3 : 3 ≤ (data.history.filter isValidDay).length) :
    (data.history.filter (fun h => isClean (dailyCoeff h) && isValidDay h) = [] →
        calculate_coeff data = coeffDefaultResponse) ∧
    (data.history.filter (fun h => isClean (dailyCoeff h) && isValidDay h) ≠ [] →
        calculate_coeff data =
          { coeff := some (roundTo 4
              (((data.history.filter (fun h => isClean (dailyCoeff h) && isValidDay h)).map
                  (fun h => dailyCoeff h * h.water)).sum /
                ((data.history.filter (fun h => isClean (dailyCoeff h) && isValidDay h)).map
                  (fun h => h.water)).sum)),
            status := some "ok", error := none }) := by
  have hne : data.history.isEmpty = false := by
    cases hh : data.history with
    | nil => simp [hh] at h3
    | cons a l => rfl
  have hnlt : ¬(data.history.filter isValidDay).length < 3 := not_lt.mpr h3
  have hcc : (data.history.filter isValidDay).filter (fun h => isClean (dailyCoeff h)) =
      data.history.filter (fun h => isClean (dailyCoeff h) && isValidDay h) :=
    List.filter_filter _ _
  constructor
  · intro hcl
    simp only [calculate_coeff, hne, Bool.false_eq_true, if_false, hcc, hcl,
      List.isEmpty_nil, if_true, if_neg hnlt]
  · intro hcl
    have hclb : (data.history.filter
        (fun h => isClean (dailyCoeff h) && isValidDay h)).isEmpty = false := by
      rw [List.isEmpty_eq_false_iff_exists_mem]
      rcases List.exists_mem_of_ne_nil _ hcl with ⟨x, hx⟩
      exact ⟨x, hx⟩
    simp only [calculate_coeff, hne, Bool.false_eq_true, if_false, hcc, hclb, if_neg hnlt]
    rw [wAverage_map]

theorem c5_witness :
    ([⟨"a", 3, 4⟩, ⟨"b", 3, 4⟩, ⟨"c", 3, 4⟩] : List HistoryItem).filter
        (fun h => isClean (dailyCoeff h) && isValidDay h) ≠ [] ∧
      calculate_coeff ⟨[⟨"a", 3, 4⟩, ⟨"b", 3, 4⟩, ⟨"c", 3, 4⟩]⟩ =
        { coeff := some (roundTo 4
            (((([⟨"a", 3, 4⟩, ⟨"b", 3, 4⟩, ⟨"c", 3, 4⟩] : List HistoryItem).filter
                (fun h => isClean (dailyCoeff h) && isValidDay h)).map
                (fun h => dailyCoeff h * h.water)).sum /
              ((([⟨"a", 3, 4⟩, ⟨"b", 3, 4⟩, ⟨"c", 3, 4⟩] : List HistoryItem).filter
                (fun h => isClean (dailyCoeff h) && isValidDay h)).map
                (fun h => h.water)).sum)),
          status := some "ok", error := none } :=
  ⟨(by norm_num [isClean, isValidDay, dailyCoeff, List.filter]; exact List.cons_ne_nil _ _),
    (c5_weighted_average ⟨[⟨"a", 3, 4⟩, ⟨"b", 3, 4⟩, ⟨"c", 3, 4⟩]⟩
        (by norm_num [isValidDay, List.filter])).2
      (by norm_num [isClean, isValidDay, dailyCoeff, List.filter]; exact List.cons_ne_nil _ _)⟩

/-- C2 (amended): the power at each sorted sample is
`flow × max 0 (sup − ret) × 0.0697` REGARDLESS of the running classification
(the source never gates `power_kw` by `is_running`), and the returned kwh is
the trapezoidal integral of that power over elapsed hours from the first
timestamp, ROUNDED to 3 decimal places (`0` when fewer than 2 samples, since
the empty range sum is `0`). -/
theorem c2_kwh_trapezoid (cosr : ℕ → ℚ) (data : DayAnalyzeRequest) (pts : List SampleP)
    (hp : parseLogs data.logs = some pts) :
    (analyze_day cosr data).kwh =
      some (roundTo 3 (∑ i in Finset.range ((sortSamples pts).length - 1),
        (hoursFrom ((sortSamples pts).getD 0 sample0).t
            ((sortSamples pts).getD (i + 1) sample0) -
          hoursFrom ((sortSamples pts).getD 0 sample0).t
            ((sortSamples pts).getD i sample0)) *
        (powerKw data.flow ((sortSamples pts).getD i sample0) +
          powerKw data.flow ((sortSamples pts).getD (i + 1) sample0)) / 2)) := by
  simp only [analyze_day, hp]
  rw [waterKwh_eq_sum]

theorem c2_witness :
    (analyze_day (fun _ => 0)
        { logs := [⟨"0", 24, 20⟩, ⟨"3600", 24, 20⟩], flow := 1 }).kwh =
      some (roundTo 3 (∑ i in
          Finset.range ((sortSamples [⟨0, 24, 20⟩, ⟨3600, 24, 20⟩]).length - 1),
        (hoursFrom ((sortSamples [⟨0, 24, 20⟩, ⟨3600, 24, 20⟩]).getD 0 sample0).t
            ((sortSamples [⟨0, 24, 20⟩, ⟨3600, 24, 20⟩]).getD (i + 1) sample0) -
          hoursFrom ((sortSamples [⟨0, 24, 20⟩, ⟨3600, 24, 20⟩]).getD 0 sample0).t
            ((sortSamples [⟨0, 24, 20⟩, ⟨3600, 24, 20⟩]).getD i sample0)) *
        (powerKw 1 ((sortSamples [⟨0, 24, 20⟩, ⟨3600, 24, 20⟩]).getD i sample0) +
          powerKw 1 ((sortSamples [⟨0, 24, 20⟩, ⟨3600, 24, 20⟩]).getD (i + 1) sample0)) / 2)) :=
  c2_kwh_trapezoid (fun _ => 0) _ [⟨0, 24, 20⟩, ⟨3600, 24, 20⟩] rfl

/-- C2 counterexample: two samples one hour apart with `sup = 24 < 25` (hence
NOT running) and `delta_t = 4`.  The claim says the power is `0` at a
non-running point, giving kwh `0`; the code integrates the ungated power and
returns `0.279`.  Moreover `0.279` is the ROUNDED integral, not the exact
trapezoidal value `0.2788` the claim's equality would require. -/
theorem c2_counterexample :
    (analyze_day (fun _ => 0)
        { logs := [⟨"0", 24, 20⟩, ⟨"3600", 24, 20⟩], flow := 1 }).kwh =
        some (279/1000) ∧
      roundTo 3 (claimGatedKwh 1 (sortSamples [⟨0, 24, 20⟩, ⟨3600, 24, 20⟩])) = 0 ∧
      (279/1000 : ℚ) ≠ 0 ∧ (279/1000 : ℚ) ≠ 2788/10000 := by
  have hp : parseLogs [⟨"0", 24, 20⟩, ⟨"3600", 24, 20⟩] =
      some [⟨0, 24, 20⟩, ⟨3600, 24, 20⟩] := rfl
  refine ⟨?_, ?_, by norm_num, by norm_num⟩ <;>
    norm_num [analyze_day, hp, sortSamples, waterKwh, claimGatedKwh, runMinutes, minuteOf,
      isRunning, deltaT, powerKw, hoursFrom, trapz, roundTo, rhalfEven,
      List.insertionSort, List.orderedInsert, timeLE]

/-- C9 (amended): the returned new meter value is
`previous_meter_value + water_kwh × current_coefficient` ROUNDED to 2 decimal
places (line 84); the accumulation itself is pure arithmetic on the unrounded
integral, with no clamping, and negative inputs flow through the sum. -/
theorem c9_ghost_meter (cosr : ℕ → ℚ) (data : DayAnalyzeRequest) (pts : List SampleP)
    (hp : parseLogs data.logs = some pts) :
    (analyze_day cosr data).new_meter_val =
      some (roundTo 2 (data.prev_meter_val +
        (∑ i in Finset.range ((sortSamples pts).length - 1),
          (hoursFrom ((sortSamples pts).getD 0 sample0).t
              ((sortSamples pts).getD (i + 1) sample0) -
            hoursFrom ((sortSamples pts).getD 0 sample0).t
              ((sortSamples pts).getD i sample0)) *
          (powerKw data.flow ((sortSamples pts).getD i sample0) +
            powerKw data.flow ((sortSamples pts).getD (i + 1) sample0)) / 2) *
        data.current_coeff)) := by
  simp only [analyze_day, hp]
  rw [← waterKwh_eq_sum]

theorem c9_witness :
    (analyze_day (fun _ => 0)
        { logs := [⟨"0", 30, 20⟩, ⟨"3600", 30, 20⟩], flow := 1, prev_meter_val := -2 }).new_meter_val =
      some (roundTo 2 ((-2 : ℚ) +
        (∑ i in Finset.range ((sortSamples [⟨0, 30, 20⟩, ⟨3600, 30, 20⟩]).length - 1),
          (hoursFrom ((sortSamples [⟨0, 30, 20⟩, ⟨3600, 30, 20⟩]).getD 0 sample0).t
              ((sortSamples [⟨0, 30, 20⟩, ⟨3600, 30, 20⟩]).getD (i + 1) sample0) -
            hoursFrom ((sortSamples [⟨0, 30, 20⟩, ⟨3600, 30, 20⟩]).getD 0 sample0).t
              ((sortSamples [⟨0, 30, 20⟩, ⟨3600, 30, 20⟩]).getD i sample0)) *
          (powerKw 1 ((sortSamples [⟨0, 30, 20⟩, ⟨3600, 30, 20⟩]).getD i sample0) +
            powerKw 1 ((sortSamples [⟨0, 30, 20⟩, ⟨3600, 30, 20⟩]).getD (i + 1) sample0)) / 2) *
        (1.05 : ℚ))) :=
  c9_ghost_meter (fun _ => 0) _ [⟨0, 30, 20⟩, ⟨3600, 30, 20⟩] rfl

/-- C9 counterexample: two running samples one hour apart give the exact
integral `0.697` and accumulation `0 + 0.697 × 1.05 = 0.73185`, but the
response reports the 2-decimal rounding `0.73`, so the returned value does
NOT equal the claim's pure arithmetic sum. -/
theorem c9_counterexample :
    (analyze_day (fun _ => 0)
        { logs := [⟨"0", 30, 20⟩, ⟨"3600", 30, 20⟩], flow := 1 }).new_meter_val =
        some (73/100) ∧
      (73/100 : ℚ) ≠ 0 + 697/1000 * (21/20) := by
  have hp : parseLogs [⟨"0", 30, 20⟩, ⟨"3600", 30, 20⟩] =
      some [⟨0, 30, 20⟩, ⟨3600, 30, 20⟩] := rfl
  refine ⟨?_, by norm_num⟩
  norm_num [analyze_day, hp, sortSamples, waterKwh, runMinutes, minuteOf, isRunning,
    deltaT, powerKw, hoursFrom, trapz, roundTo, rhalfEven, List.insertionSort,
    List.orderedInsert, timeLE]

/-- C10: a day-analysis request constructed without the `current_coeff` field
receives the pydantic default `1.05` (line 22), which is used for the
ghost-meter accumulation and reported unchanged in `used_coeff`. -/
theorem c10_default_coefficient (cosr : ℕ → ℚ) (logs : List LogItem)
    (flow it sa pm : ℚ) (ds : String) (pts : List SampleP)
    (hp : parseLogs logs = some pts) :
    (analyze_day cosr { logs := logs, flow := flow, indoor_temp := it,
                        solar_avg := sa, prev_meter_val := pm, date_str := ds }).used_coeff =
        some 1.05 ∧
      (analyze_day cosr { logs := logs, flow := flow, indoor_temp := it,
                          solar_avg := sa, prev_meter_val := pm, date_str := ds }).new_meter_val =
        some (roundTo 2 (pm + waterKwh flow (sortSamples pts) * 1.05)) := by
  constructor <;> simp only [analyze_day, hp]

theorem c10_witness :
    (analyze_day (fun _ => 0) { logs := [⟨"60", 30, 20⟩], flow := 2, indoor_temp := 22,
                                solar_avg := 0, prev_meter_val := 5, date_str := "" }).used_coeff =
        some 1.05 ∧
      (analyze_day (fun _ => 0) { logs := [⟨"60", 30, 20⟩], flow := 2, indoor_temp := 22,
                                  solar_avg := 0, prev_meter_val := 5, date_str := "" }).new_meter_val =
        some (roundTo 2 (5 + waterKwh 2 (sortSamples [⟨60, 30, 20⟩]) * 1.05)) :=
  c10_default_coefficient (fun _ => 0) [⟨"60", 30, 20⟩] 2 22 0 5 "" [⟨60, 30, 20⟩] rfl

/-- C5 counterexample: three valid days whose ratio is exactly `0.8` are all
discarded by the STRICT filter of line 99, so the code returns the default
`1.157`, while the claim's closed interval `[0.8, 2.5]` would keep them and
return their weighted average `0.8`; and with ratio `4/3` on every day the
returned value is the 4-decimal rounding `1.3333`, not the exact average
`4/3` the claim states. -/
theorem c5_counterexample :
    (calculate_coeff ⟨[⟨"a", 1, 4/5⟩, ⟨"b", 1, 4/5⟩, ⟨"c", 1, 4/5⟩]⟩).coeff =
        some (1157/1000) ∧
      claimCoeffClosed ⟨[⟨"a", 1, 4/5⟩, ⟨"b", 1, 4/5⟩, ⟨"c", 1, 4/5⟩]⟩ = some (4/5) ∧
      (1157/1000 : ℚ) ≠ 4/5 ∧
      (calculate_coeff ⟨[⟨"a", 3, 4⟩, ⟨"b", 3, 4⟩, ⟨"c", 3, 4⟩]⟩).coeff =
        some (13333/10000) ∧
      (13333/10000 : ℚ) ≠ 4/3 := by
  refine ⟨?_, ?_, by norm_num, ?_, by norm_num⟩ <;>
    norm_num [calculate_coeff, claimCoeffClosed, isValidDay, isClean, dailyCoeff,
      wAverage, roundTo, rhalfEven, coeffDefaultResponse, List.filter]

/-- C6 (spec-modelled): the recency-weighted estimator takes `sum(ele)/sum(water)`
over the most recent 7 valid days (all if fewer), returns the default `1.157`
on a zero water sum, and its returned coefficient always lies in `[0.7, 1.5]`
(the default included). -/
theorem c6_recency_estimator (data : CoeffRequest) :
    (∃ q, (calc_coeff_recency data).coeff = some q ∧ q ∈ Set.Icc (0.7 : ℚ) 1.5) ∧
      (3 ≤ (data.history.filter isValidDay).length →
        (((((data.history.filter isValidDay).drop
              ((data.history.filter isValidDay).length - 7)).map (·.water)).sum = 0 →
            calc_coeff_recency data = coeffDefaultResponse) ∧
          ((((data.history.filter isValidDay).drop
              ((data.history.filter isValidDay).length - 7)).map (·.water)).sum ≠ 0 →
            (calc_coeff_recency data).coeff =
              some (max 0.7 (min 1.5
                ((((data.history.filter isValidDay).drop
                    ((data.history.filter isValidDay).length - 7)).map (·.ele)).sum /
                  (((data.history.filter isValidDay).drop
                    ((data.history.filter isValidDay).length - 7)).map (·.water)).sum)))))) := by
  constructor
  · simp only [calc_coeff_recency]
    split_ifs with h1 h2
    · exact ⟨1.157, rfl, by constructor <;> norm_num⟩
    · exact ⟨1.157, rfl, by constructor <;> norm_num⟩
    · refine ⟨_, rfl, ?_, ?_⟩
      · exact le_max_left _ _
      · exact max_le (by norm_num) (min_le_left _ _)
  · intro h3
    have hnlt : ¬(data.history.filter isValidDay).length < 3 := not_lt.mpr h3
    constructor
    · intro hz
      simp only [calc_coeff_recency, if_neg hnlt, hz, if_true]
    · intro hz
      simp only [calc_coeff_recency, if_neg hnlt, if_neg hz]

theorem c6_witness :
    ∃ q, (calc_coeff_recency ⟨[⟨"a", 1, 1⟩, ⟨"b", 1, 1⟩, ⟨"c", 1, 1⟩]⟩).coeff = some q ∧
      q ∈ Set.Icc (0.7 : ℚ) 1.5 :=
  (c6_recency_estimator ⟨[⟨"a", 1, 1⟩, ⟨"b", 1, 1⟩, ⟨"c", 1, 1⟩]⟩).1

/-- C7 (spec-modelled): the distributor's allocated shares sum exactly to the
total delta (non-empty input), each day's share is `total × water/total_water`
when the total water is nonzero — so a zero-water day gets exactly `0` — and a
zero total water splits the delta evenly across all days. -/
theorem c7_distribute (total : ℚ) (logs : List WaterLogItem) (hne : logs ≠ []) :
    ((distribute_energy total logs).map (fun p => p.2)).sum = total ∧
      ((logs.map (·.water)).sum ≠ 0 →
        ∀ i, i < logs.length →
          (distribute_energy total logs).getD i ("", 0) =
            ((logs.getD i ⟨"", 0⟩).date,
              total * ((logs.getD i ⟨"", 0⟩).water / (logs.map (·.water)).sum))) ∧
      ((logs.map (·.water)).sum ≠ 0 →
        ∀ l ∈ logs, l.water = 0 → (l.date, (0 : ℚ)) ∈ distribute_energy total logs) ∧
      ((logs.map (·.water)).sum = 0 →
        ∀ p ∈ distribute_energy total logs, p.2 = total / (logs.length : ℚ)) := by
  have hlenne : (logs.length : ℚ) ≠ 0 := by
    have : logs.length ≠ 0 := fun h => hne (List.length_eq_zero.mp h)
    exact_mod_cast Nat.cast_ne_zero.mpr this
  refine ⟨?_, ?_, ?_, ?_⟩
  · by_cases hW : (logs.map (·.water)).sum = 0
    · simp only [distribute_energy, hW, if_true, List.map_map]
      have hconst : ((fun (p : String × ℚ) => p.2) ∘
          fun (l : WaterLogItem) => (l.date, total / (logs.length : ℚ))) =
          fun (_ : WaterLogItem) => total / (logs.length : ℚ) := rfl
      rw [hconst, List.map_const', List.sum_replicate, nsmul_eq_mul]
      field_simp
    · simp only [distribute_energy, hW, if_false, List.map_map]
      have hfun : ((fun (p : String × ℚ) => p.2) ∘
          fun (l : WaterLogItem) => (l.date, total * (l.water / (logs.map (·.water)).sum))) =
          fun (l : WaterLogItem) => (total / (logs.map (·.water)).sum) * l.water := by
        funext l
        show total * (l.water / (logs.map (·.water)).sum) = _
        ring
      rw [hfun, List.sum_map_mul_left]
      field_simp
  · intro hW i hi
    have hlen : i < (logs.map
        (fun l => (l.date, total * (l.water / (logs.map (·.water)).sum)))).length := by
      simpa using hi
    simp only [distribute_energy, hW, if_false]
    rw [List.getD_eq_getElem?_getD, List.getElem?_eq_getElem hlen]
    rw [List.getD_eq_getElem?_getD, List.getElem?_eq_getElem hi]
    simp [List.getElem_map]
  · intro hW l hl hw
    simp only [distribute_energy, hW, if_false]
    refine List.mem_map.mpr ⟨l, hl, ?_⟩
    rw [hw]
    norm_num
  · intro hW p hp
    simp only [distribute_energy, hW, if_true] at hp
    obtain ⟨l, _, rfl⟩ := List.mem_map.mp hp
    rfl

theorem c7_witness :
    ((distribute_energy 10 [⟨"A", 5⟩, ⟨"B", 5⟩]).map (fun p => p.2)).sum = 10 :=
  (c7_distribute 10 [⟨"A", 5⟩, ⟨"B", 5⟩] (List.cons_ne_nil _ _)).1

/-- C8: for any request whose samples parse, with the spec's input invariant
`flow_rate ≥ 0` and at least 2 samples, the returned kwh is a present value
that is nonnegative — even with reversed temperatures, because each
`delta_t` is floored at `0` (line 58) and the timestamps are sorted, so every
trapezoid has nonnegative area, and rounding preserves the sign. -/
theorem c8_energy_nonneg (cosr : ℕ → ℚ) (data : DayAnalyzeRequest) (pts : List SampleP)
    (hp : parseLogs data.logs = some pts) (hflow : 0 ≤ data.flow)
    (_h2 : 2 ≤ data.logs.length) :
    ∃ q, (analyze_day cosr data).kwh = some q ∧ 0 ≤ q := by
  refine ⟨roundTo 3 (waterKwh data.flow (sortSamples pts)), ?_, ?_⟩
  · simp only [analyze_day, hp]
  · exact roundTo_nonneg 3 (waterKwh_nonneg hflow _ (sortSamples_sorted pts))

theorem c8_witness :
    ∃ q, (analyze_day (fun _ => 0)
        { logs := [⟨"0", 30, 40⟩, ⟨"60", 20, 30⟩], flow := 2 }).kwh = some q ∧ 0 ≤ q :=
  c8_energy_nonneg (fun _ => 0) _ [⟨0, 30, 40⟩, ⟨60, 20, 30⟩] rfl (by norm_num) (by norm_num)

/-- C3 (amended/corrected): the samples are sorted by timestamp, but the only
thing resampled onto the 1-minute grid spanning the first to the last
timestamp is the boolean running classification (per-minute maximum, minutes
without samples counted as not running), which yields `run_mins`; temperatures
are never interpolated, and no off-minutes figure is returned on any path.
On an empty sample list the response is `kwh = 0`, `run_mins = 0`, and the
`off_mins` key is absent (not `1440`). -/
theorem c3_resampling (cosr : ℕ → ℚ) (data : DayAnalyzeRequest) (pts : List SampleP)
    (hp : parseLogs data.logs = some pts) :
    (analyze_day cosr data).off_mins = none ∧
      (data.logs = [] →
        (analyze_day cosr data).kwh = some 0 ∧
          (analyze_day cosr data).run_mins = some 0) ∧
      (∀ s0 rest, sortSamples pts = s0 :: rest →
        (analyze_day cosr data).run_mins =
          some (((Finset.Icc (minuteOf s0.t) (minuteOf (rest.getLastD s0).t)).filter
            (fun m => ∃ s ∈ s0 :: rest, minuteOf s.t = m ∧ isRunning s = true)).card)) := by
  refine ⟨?_, ?_, ?_⟩
  · simp only [analyze_day, hp]
  · intro hlogs
    have hpts : pts = [] := by
      rw [hlogs] at hp
      simpa [parseLogs] using hp.symm
    subst hpts
    constructor
    · simp only [analyze_day, hp]
      norm_num [sortSamples, List.insertionSort, waterKwh, roundTo, rhalfEven]
    · simp only [analyze_day, hp]
      norm_num [sortSamples, List.insertionSort, runMinutes]
  · intro s0 rest hsort
    simp only [analyze_day, hp]
    rw [hsort]
    exact congrArg some
      (runMinutes_eq_card_filter_Icc s0 rest (hsort ▸ sortSamples_sorted pts))

theorem c3_witness :
    (analyze_day (fun _ => 0)
        { logs := [⟨"0", 35, 25⟩, ⟨"120", 30, 40⟩], flow := 1 }).off_mins = none :=
  (c3_resampling (fun _ => 0) { logs := [⟨"0", 35, 25⟩, ⟨"120", 30, 40⟩], flow := 1 }
    [⟨0, 35, 25⟩, ⟨120, 30, 40⟩] rfl).1

/-- C3 counterexample: the empty request's response has NO off-minutes key
(`none`, not `1440`); and on two samples 2 minutes apart with a clipped
negative delta at the second, the code integrates the raw samples and returns
`0.012` kwh, while the claim's interpolate-onto-1-minute-grid pipeline (here
`claimResampledKwh`, following the spec's words) yields `0.006` — the returned
kwh does not come from interpolated per-minute temperatures. -/
theorem c3_counterexample :
    (analyze_day (fun _ => 0) { logs := [], flow := 1 }).off_mins = none ∧
      (analyze_day (fun _ => 0)
        { logs := [⟨"0", 35, 25⟩, ⟨"120", 30, 40⟩], flow := 1 }).kwh = some (12/1000) ∧
      roundTo 3 (claimResampledKwh 1 [⟨0, 35, 25⟩, ⟨120, 30, 40⟩]) = 6/1000 ∧
      (12/1000 : ℚ) ≠ 6/1000 := by
  have hp : parseLogs [⟨"0", 35, 25⟩, ⟨"120", 30, 40⟩] =
      some [⟨0, 35, 25⟩, ⟨120, 30, 40⟩] := rfl
  have hp0 : parseLogs ([] : List LogItem) = some [] := rfl
  refine ⟨?_, ?_, ?_, by norm_num⟩
  · simp [analyze_day, hp0]
  · norm_num [analyze_day, hp, sortSamples, waterKwh, runMinutes, minuteOf, isRunning,
      deltaT, powerKw, hoursFrom, trapz, roundTo, rhalfEven, List.insertionSort,
      List.orderedInsert, timeLE]
  · norm_num [claimResampledKwh, interpPair, sortSamples, List.insertionSort,
      List.orderedInsert, timeLE, trapz, roundTo, rhalfEven, List.range_succ]
